import Mathlib

/-!
# Verification of the LLM request gateway

A shallow embedding, in Lean 4, of the gateway core of the repository:
the in-process rate limiter (`src/lib/rate-limit.ts`), the provider client
resolver (`getModelClient`), the chat route's error normalizer and fallback
logic (`src/app/api/chat/route.ts`), the circuit-breaker / retry helpers
(`ErrorRecovery`), and the raw-mode SSE streaming pipeline.

JavaScript conventions are modelled explicitly:
* a possibly-absent string (a value that may be `undefined`/`null`) is an
  `Option String`; JS truthiness of such a value is `optTruthy` (absent and
  the empty string are falsy);
* `a || b` on strings is `jsOrO`;
* `a ?? b` (nullish coalescing) is `jsCoalesce`;
* timestamps (`Date.now()`) are `Nat` milliseconds;
* JSON values are the inductive `JsValue`, with JSON numbers as rationals.
-/

/-- JS truthiness of a string: the empty string is falsy. -/
def strTruthy (s : String) : Bool := s ≠ ""

/-- JS truthiness of a possibly-absent string (`undefined`/`null`/`""` are falsy). -/
def optTruthy : Option String → Bool
  | some s => strTruthy s
  | none => false

/-- JS `a || b` for possibly-absent strings: `b` when `a` is falsy. -/
def jsOrO (a b : Option String) : Option String :=
  if optTruthy a then a else b

/-- JS `a ?? b` (nullish coalescing): `b` only when `a` is absent. -/
def jsCoalesce {α : Type} (a b : Option α) : Option α :=
  match a with
  | some x => some x
  | none => b

/-- ASCII whitespace, the fragment of JS whitespace these inputs use. -/
def isWsChar (c : Char) : Bool :=
  c = ' ' || c = '\t' || c = '\n' || c = '\r'

/-- JS `String.prototype.trim` (restricted to ASCII whitespace). -/
def jsTrim (s : String) : String :=
  String.mk (((s.data.dropWhile isWsChar).reverse.dropWhile isWsChar).reverse)

/-- Helper for `jsSplitComma`: accumulates the current piece in reverse. -/
def splitCommaAux : List Char → List Char → List String
  | [], acc => [String.mk acc.reverse]
  | c :: rest, acc =>
      if c = ',' then String.mk acc.reverse :: splitCommaAux rest []
      else splitCommaAux rest (c :: acc)

/-- JS `s.split(',')`: always returns at least one piece. -/
def jsSplitComma (s : String) : List String :=
  splitCommaAux s.data []

/-! ## Rate limiter (`src/lib/rate-limit.ts`) -/

/-- The result type `RateLimitResult` from `src/lib/rate-limit.ts`.  `remaining` is an `Int`
because the source computes `max - count` with plain JS arithmetic. -/
structure RateLimitResult where
  allowed : Bool
  remaining : Int
  retryAfterMs : Option Nat := none
deriving DecidableEq, Repr

/-- The in-memory bucket `Entry { count, resetAt }`. -/
structure Entry where
  count : Nat
  resetAt : Nat
deriving DecidableEq, Repr

/-- The module-level `memoryBuckets` map, as an association list. -/
abbrev Buckets := List (String × Entry)

/-- Lookup `memoryBuckets.get(key)`. -/
def bucketsGet (b : Buckets) (key : String) : Option Entry :=
  match b with
  | [] => none
  | (k, e) :: rest => if k = key then some e else bucketsGet rest key

/-- Update `memoryBuckets.set(key, entry)`. -/
def bucketsSet (b : Buckets) (key : String) (e : Entry) : Buckets :=
  match b with
  | [] => [(key, e)]
  | (k, e') :: rest =>
      if k = key then (k, e) :: rest else (k, e') :: bucketsSet rest key e

/-- The function `memoryRateLimit(namespacedKey, max, windowMs)` from `src/lib/rate-limit.ts`,
with the implicit state (`Date.now()` and the `memoryBuckets` map) passed
explicitly.  Mirrors the source:
if the entry is absent or `resetAt <= now`, reset to `{count: 1, resetAt:
now + windowMs}` and allow with `remaining = max - 1`; else if `count < max`,
increment and allow with `remaining = max - count`; else disallow with
`retryAfterMs = resetAt - now`. -/
def memoryRateLimit (namespacedKey : String) (max : Int) (windowMs : Nat)
    (now : Nat) (buckets : Buckets) : RateLimitResult × Buckets :=
  match bucketsGet buckets namespacedKey with
  | none =>
      ({ allowed := true, remaining := max - 1 },
       bucketsSet buckets namespacedKey { count := 1, resetAt := now + windowMs })
  | some entry =>
      if entry.resetAt ≤ now then
        ({ allowed := true, remaining := max - 1 },
         bucketsSet buckets namespacedKey { count := 1, resetAt := now + windowMs })
      else if (entry.count : Int) < max then
        ({ allowed := true, remaining := max - (entry.count + 1) },
         bucketsSet buckets namespacedKey
           { count := entry.count + 1, resetAt := entry.resetAt })
      else
        ({ allowed := false, remaining := 0,
           retryAfterMs := some (entry.resetAt - now) }, buckets)

/-- A sequence of `memoryRateLimit` calls for one key, at the given timestamps,
threading the bucket map; returns the list of results and the final map. -/
def simCalls (key : String) (max : Int) (windowMs : Nat) :
    List Nat → Buckets → List RateLimitResult × Buckets
  | [], b => ([], b)
  | t :: ts, b =>
      let step := memoryRateLimit key max windowMs t b
      let rest := simCalls key max windowMs ts step.2
      (step.1 :: rest.1, rest.2)

/-! ## JSON values and `JSON.parse`

The host runtime's JSON values, as seen by the gateway.  JSON numbers are
modelled as rationals (the schema bounds the gateway checks are order
comparisons, which rationals capture exactly).  `JSON.parse` is modelled by
`jsonParse`, a recursive-descent parser for the JSON fragment these inputs
use: `null`, booleans, integer numerals, strings with the common single-char
escapes, arrays and objects. -/

inductive JsValue where
  | null
  | bool (b : Bool)
  | num (q : Rat)
  | str (s : String)
  | arr (elems : List JsValue)
  | obj (fields : List (String × JsValue))

/-- JS optional-chained property access `v?.[k]`: `undefined` (`none`) unless
`v` is an object that has the key. -/
def jsGet (v : JsValue) (k : String) : Option JsValue :=
  match v with
  | .obj fields =>
      match fields.find? (fun p => p.1 = k) with
      | some p => some p.2
      | none => none
  | _ => none

/-- JS truthiness of a JSON value. -/
def jsTruthy : JsValue → Bool
  | .null => false
  | .bool b => b
  | .num q => q ≠ 0
  | .str s => s ≠ ""
  | .arr _ => true
  | .obj _ => true

/-- JS truthiness of a possibly-`undefined` JSON value. -/
def optJsTruthy : Option JsValue → Bool
  | some v => jsTruthy v
  | none => false

/-- Skip JSON whitespace. -/
def skipWs : List Char → List Char
  | c :: rest => if isWsChar c then skipWs rest else c :: rest
  | [] => []

/-- Decode one JSON string-escape character. -/
def unescapeChar (c : Char) : Option Char :=
  if c = '"' then some '"'
  else if c = '\\' then some '\\'
  else if c = '/' then some '/'
  else if c = 'n' then some '\n'
  else if c = 't' then some '\t'
  else if c = 'r' then some '\r'
  else if c = 'b' then some (Char.ofNat 8)
  else if c = 'f' then some (Char.ofNat 12)
  else none

/-- Parse the body of a JSON string (after the opening quote), returning the
decoded string and the rest of the input. -/
def parseStringBody : List Char → List Char → Option (String × List Char)
  | [], _ => none
  | c :: rest, acc =>
      if c = '"' then some (String.mk acc.reverse, rest)
      else if c = '\\' then
        match rest with
        | [] => none
        | e :: rest' =>
            match unescapeChar e with
            | some d => parseStringBody rest' (d :: acc)
            | none => none
      else parseStringBody rest (c :: acc)

/-- Parse a run of decimal digits. -/
def parseDigits : List Char → Nat → Option (Nat × List Char)
  | c :: rest, acc =>
      if c.isDigit then
        match parseDigits rest (10 * acc + (c.toNat - 48)) with
        | some r => some r
        | none => some (10 * acc + (c.toNat - 48), rest)
      else none
  | [], _ => none

mutual

/-- Parse one JSON value.  The fuel argument strictly decreases on every
recursive call; `jsonParse` supplies enough for any input. -/
def parseVal : Nat → List Char → Option (JsValue × List Char)
  | 0, _ => none
  | fuel + 1, cs =>
      match skipWs cs with
      | 'n' :: 'u' :: 'l' :: 'l' :: rest => some (.null, rest)
      | 't' :: 'r' :: 'u' :: 'e' :: rest => some (.bool true, rest)
      | 'f' :: 'a' :: 'l' :: 's' :: 'e' :: rest => some (.bool false, rest)
      | '"' :: rest =>
          match parseStringBody rest [] with
          | some (s, rest') => some (.str s, rest')
          | none => none
      | '[' :: rest =>
          (match skipWs rest with
           | ']' :: rest' => some (.arr [], rest')
           | other =>
               match parseArrElems fuel other with
               | some (elems, rest') => some (.arr elems, rest')
               | none => none)
      | '\x7b' :: rest =>
          (match skipWs rest with
           | '\x7d' :: rest' => some (.obj [], rest')
           | other =>
               match parseObjFields fuel other with
               | some (fields, rest') => some (.obj fields, rest')
               | none => none)
      | '-' :: rest =>
          (match parseDigits rest 0 with
           | some (n, rest') => some (.num (-(n : Rat)), rest')
           | none => none)
      | c :: rest =>
          if c.isDigit then
            match parseDigits (c :: rest) 0 with
            | some (n, rest') => some (.num (n : Rat), rest')
            | none => none
          else none
      | [] => none

/-- Parse the comma-separated elements of a non-empty JSON array, including
the closing bracket. -/
def parseArrElems : Nat → List Char → Option (List JsValue × List Char)
  | 0, _ => none
  | fuel + 1, cs =>
      match parseVal fuel cs with
      | some (v, rest) =>
          (match skipWs rest with
           | ',' :: rest' =>
               (match parseArrElems fuel rest' with
                | some (vs, rest'') => some (v :: vs, rest'')
                | none => none)
           | ']' :: rest' => some ([v], rest')
           | _ => none)
      | none => none

/-- Parse the fields of a non-empty JSON object, including the closing brace. -/
def parseObjFields : Nat → List Char → Option (List (String × JsValue) × List Char)
  | 0, _ => none
  | fuel + 1, cs =>
      match skipWs cs with
      | '"' :: rest =>
          (match parseStringBody rest [] with
           | some (k, rest') =>
               (match skipWs rest' with
                | ':' :: rest'' =>
                    (match parseVal fuel rest'' with
                     | some (v, rest3) =>
                         (match skipWs rest3 with
                          | ',' :: rest4 =>
                              (match parseObjFields fuel rest4 with
                               | some (fs, rest5) => some ((k, v) :: fs, rest5)
                               | none => none)
                          | '\x7d' :: rest4 => some ([(k, v)], rest4)
                          | _ => none)
                     | none => none)
                | _ => none)
           | none => none)
      | _ => none

end

/-- The host `JSON.parse`, modelled on the JSON fragment the gateway feeds it:
`none` is a thrown `SyntaxError` (unparseable input, including trailing
garbage). -/
def jsonParse (s : String) : Option JsValue :=
  match parseVal (s.length + 1) s.data with
  | some (v, rest) => if skipWs rest = [] then some v else none
  | none => none


/-- The HTTP request, restricted to what the gateway reads: the method, the
headers (an association list, first match wins), and the result of
`req.json()` (`none` models a body that is not parseable JSON). -/
structure Request where
  method : String
  headers : List (String × String)
  body : Option JsValue := none

/-- Header lookup `req.headers.get(name)`. -/
def headerGet (req : Request) (name : String) : Option String :=
  match req.headers.find? (fun p => p.1 = name) with
  | some p => some p.2
  | none => none

/-- The first comma-separated element of the `x-forwarded-for` header (the
header defaulted to `""` when absent), trimmed:
`xff.split(',')[0]?.trim()` in the source. -/
def forwardedFirstHop (req : Request) : String :=
  jsTrim ((jsSplitComma ((headerGet req "x-forwarded-for").getD "")).headD "")

/-- The `opts` argument of `getClientKey`. -/
structure ClientKeyOpts where
  userID : Option String := none
  teamID : Option String := none

/-- The function `getClientKey(req, opts)` from `src/lib/rate-limit.ts`:
`uid:` + userID when truthy, else `tid:` + teamID when truthy, else `ip:` +
(first comma-separated element of `x-forwarded-for`, trimmed, falling back to
`x-real-ip`, falling back to the literal `unknown`). -/
def getClientKey (req : Request) (opts : ClientKeyOpts) : String :=
  if optTruthy opts.userID then "uid:" ++ opts.userID.getD ""
  else if optTruthy opts.teamID then "tid:" ++ opts.teamID.getD ""
  else
    let firstHop := forwardedFirstHop req
    let ip :=
      if strTruthy firstHop then firstHop
      else
        match headerGet req "x-real-ip" with
        | some r => if strTruthy r then r else "unknown"
        | none => "unknown"
    "ip:" ++ ip


/-! ## Provider client resolver (`getModelClient`) -/

/-- The model descriptor `LLMModel` from the models module. -/
structure LLMModel where
  id : String
  name : String
  provider : String
  providerId : String

/-- The per-request `LLMModelConfig` (generation parameters omitted where the resolver never
reads them). -/
structure LLMModelConfig where
  model : Option String := none
  apiKey : Option String := none
  baseURL : Option String := none
  temperature : Option Rat := none
  topP : Option Rat := none
  topK : Option Rat := none
  frequencyPenalty : Option Rat := none
  presencePenalty : Option Rat := none
  maxTokens : Option Rat := none

/-- The process environment, as an association list of variables. -/
abbrev Env := List (String × String)

/-- Environment lookup `process.env[name]`. -/
def envGet (env : Env) (name : String) : Option String :=
  match env with
  | [] => none
  | (k, v) :: rest => if k = name then some v else envGet rest name

/-- One entry of the resolver's `resolved` table: effective credentials for a
provider (`config.apiKey || env var`, `config.baseURL || env var or fixed
default`). -/
structure ResolvedEntry where
  apiKey : Option String
  baseURL : Option String
deriving DecidableEq, Repr

/-- The error `ProviderConfigError{provider, message}` (`src/lib/errors`), plus the
generic `Unsupported provider` error thrown by `getModelClient`. -/
inductive GetClientError where
  | providerConfig (provider : String) (message : String)
  | unsupported (providerId : String)
deriving DecidableEq, Repr

/-- The constructed generation client, as a descriptor recording which SDK
factory the source invokes and with what arguments.  `openaiCompat` stands for
`createOpenAI` applied to a non-OpenAI resolved entry (groq, togetherai, xai,
deepseek). -/
inductive GenClient where
  | anthropic (cfg : ResolvedEntry) (model : String)
  | openai (cfg : ResolvedEntry) (model : String)
  | google (cfg : ResolvedEntry) (model : String)
  | mistral (cfg : ResolvedEntry) (model : String)
  | openaiCompat (cfg : ResolvedEntry) (model : String)
  | ollama (baseURL : Option String) (model : String)
  | fireworks (cfg : ResolvedEntry) (model : String)
  | vertex (credentials : JsValue) (model : String)

/-- The `resolved` table of `getModelClient`, looked up by providerId; `none`
for the two providers (`ollama`, `vertex`) the table does not list. -/
def resolvedLookup (config : LLMModelConfig) (env : Env) : String → Option ResolvedEntry
  | "openai" => some ⟨jsOrO config.apiKey (envGet env "OPENAI_API_KEY"),
                      jsOrO config.baseURL (envGet env "OPENAI_BASE_URL")⟩
  | "anthropic" => some ⟨jsOrO config.apiKey (envGet env "ANTHROPIC_API_KEY"),
                         jsOrO config.baseURL (envGet env "ANTHROPIC_BASE_URL")⟩
  | "google" => some ⟨jsOrO config.apiKey (envGet env "GOOGLE_AI_API_KEY"),
                      jsOrO config.baseURL (envGet env "GOOGLE_BASE_URL")⟩
  | "mistral" => some ⟨jsOrO config.apiKey (envGet env "MISTRAL_API_KEY"),
                       jsOrO config.baseURL (envGet env "MISTRAL_BASE_URL")⟩
  | "groq" => some ⟨jsOrO config.apiKey (envGet env "GROQ_API_KEY"),
                    jsOrO config.baseURL (some "https://api.groq.com/openai/v1")⟩
  | "togetherai" => some ⟨jsOrO config.apiKey (envGet env "TOGETHER_API_KEY"),
                          jsOrO config.baseURL (some "https://api.together.xyz/v1")⟩
  | "fireworks" => some ⟨jsOrO config.apiKey (envGet env "FIREWORKS_API_KEY"),
                         jsOrO config.baseURL (some "https://api.fireworks.ai/inference/v1")⟩
  | "xai" => some ⟨jsOrO config.apiKey (envGet env "XAI_API_KEY"),
                   jsOrO config.baseURL (some "https://api.x.ai/v1")⟩
  | "deepseek" => some ⟨jsOrO config.apiKey (envGet env "DEEPSEEK_API_KEY"),
                        jsOrO config.baseURL (some "https://api.deepseek.com/v1")⟩
  | _ => none

/-- The three required Vertex credential fields. -/
def vertexRequiredFields : List String := ["client_email", "private_key", "project_id"]

/-- The computation `required.filter((k) => !credentials?.[k])`. -/
def vertexMissingFields (credentials : JsValue) : List String :=
  vertexRequiredFields.filter (fun k => !optJsTruthy (jsGet credentials k))

/-- The `vertex` client-construction closure of `getModelClient`: parse
`process.env.GOOGLE_VERTEX_CREDENTIALS || '\x7b\x7d'`, fail on a JSON parse
error, fail listing the missing required fields, else build the client. -/
def vertexCtor (env : Env) (modelNameString : String) : Except GetClientError GenClient :=
  match jsonParse ((jsOrO (envGet env "GOOGLE_VERTEX_CREDENTIALS") (some "\x7b\x7d")).getD "") with
  | none => .error (.providerConfig "vertex" "Invalid JSON in GOOGLE_VERTEX_CREDENTIALS")
  | some credentials =>
      let missing := vertexMissingFields credentials
      if missing.length ≠ 0 then
        .error (.providerConfig "vertex"
          ("Missing required Vertex credential fields: " ++ String.intercalate ", " missing))
      else
        .ok (.vertex credentials modelNameString)

/-- The `providerConfigs` dispatch table of `getModelClient`: one
client-construction closure per known providerId, `none` otherwise. -/
def providerConfigsLookup (model : LLMModel) (config : LLMModelConfig) (env : Env) :
    String → Option (Unit → Except GetClientError GenClient)
  | "anthropic" => some fun _ =>
      .ok (.anthropic ((resolvedLookup config env "anthropic").getD ⟨none, none⟩) model.id)
  | "openai" => some fun _ =>
      .ok (.openai ((resolvedLookup config env "openai").getD ⟨none, none⟩) model.id)
  | "google" => some fun _ =>
      .ok (.google ((resolvedLookup config env "google").getD ⟨none, none⟩) model.id)
  | "mistral" => some fun _ =>
      .ok (.mistral ((resolvedLookup config env "mistral").getD ⟨none, none⟩) model.id)
  | "groq" => some fun _ =>
      .ok (.openaiCompat ((resolvedLookup config env "groq").getD ⟨none, none⟩) model.id)
  | "togetherai" => some fun _ =>
      .ok (.openaiCompat ((resolvedLookup config env "togetherai").getD ⟨none, none⟩) model.id)
  | "ollama" => some fun _ => .ok (.ollama config.baseURL model.id)
  | "fireworks" => some fun _ =>
      .ok (.fireworks ((resolvedLookup config env "fireworks").getD ⟨none, none⟩) model.id)
  | "vertex" => some fun _ => vertexCtor env model.id
  | "xai" => some fun _ =>
      .ok (.openaiCompat ((resolvedLookup config env "xai").getD ⟨none, none⟩) model.id)
  | "deepseek" => some fun _ =>
      .ok (.openaiCompat ((resolvedLookup config env "deepseek").getD ⟨none, none⟩) model.id)
  | _ => none

/-- The resolver `getModelClient(model, config)` from the models module, with the process
environment passed explicitly.  Mirrors the source: look up the
client-construction closure (unknown providerId throws `Unsupported
provider`), then enforce API-key presence for every provider except `ollama`
and `vertex`, then invoke the closure. -/
def getModelClient (model : LLMModel) (config : LLMModelConfig) (env : Env) :
    Except GetClientError GenClient :=
  match providerConfigsLookup model config env model.providerId with
  | none => .error (.unsupported model.providerId)
  | some createClient =>
      let requiresKey := !(["ollama", "vertex"].contains model.providerId)
      let res := resolvedLookup config env model.providerId
      if requiresKey && !(optTruthy (res.bind (fun r => r.apiKey))) then
        .error (.providerConfig model.providerId
          ("Missing API key for provider: " ++ model.providerId))
      else createClient ()


/-! ## Error normalizer (catch block of the chat `POST` handler) -/

/-- A JS value sitting in a status-like field: a number or something else
(modelled as a string), distinguished because the handler both `switch`es on
numeric statuses and checks `typeof status === 'number'`. -/
inductive JsStatus where
  | num (n : Int)
  | str (s : String)
deriving DecidableEq, Repr

/-- The caught error, restricted to the fields the chat route's catch block
reads.  Absent (`undefined`) fields are `none`. -/
structure JsError where
  name : Option String := none
  message : Option String := none
  code : Option String := none
  errorCode : Option String := none
  respDataErrorCode : Option String := none
  status : Option JsStatus := none
  statusCode : Option JsStatus := none
  respStatus : Option JsStatus := none
  causeName : Option String := none
  provider : Option String := none
deriving DecidableEq, Repr

/-- The normalized JSON error envelope, restricted to the machine-readable
`error.code` and the HTTP status. -/
structure NormalizedResponse where
  code : String
  status : Int
deriving DecidableEq, Repr

/-- Whether `needle` occurs in `haystack` (both already lower-cased by the caller). -/
def hasSubstr (needle haystack : String) : Bool :=
  (haystack.data.tails.map (fun t => needle.data.isPrefixOf t)).any id

/-- ASCII lower-casing, the fragment of JS `toLowerCase` these inputs use. -/
def asciiLower (s : String) : String :=
  String.mk (s.data.map (fun c =>
    if 'A' ≤ c ∧ c ≤ 'Z' then Char.ofNat (c.toNat + 32) else c))

/-- The test `/credentials/i.test(String(error?.message))`: JS stringifies an absent
message to the text `undefined`. -/
def messageMatchesCredentials (message : Option String) : Bool :=
  hasSubstr "credentials" (asciiLower (message.getD "undefined"))

/-- The handler's
`const status = error?.status ?? error?.statusCode ?? error?.response?.status`. -/
def chatErrStatus (e : JsError) : Option JsStatus :=
  jsCoalesce e.status (jsCoalesce e.statusCode e.respStatus)

/-- The handler's `const providerCode = error?.code ?? error?.error?.code ??
error?.response?.data?.error?.code`. -/
def chatErrProviderCode (e : JsError) : Option String :=
  jsCoalesce e.code (jsCoalesce e.errorCode e.respDataErrorCode)

/-- The error-normalization tail of the chat `POST` catch block
(`src/app/api/chat/route.ts`): the priority chain
`ProviderConfigError` → `ZodError` (also via `cause`) → `SyntaxError` or a
credentials-pattern message → the numeric-status `switch` → the default arm
`providerCode || 'generation_failed'` with the original status when numeric,
else 500. -/
def normalizeChatError (e : JsError) : NormalizedResponse :=
  let status := chatErrStatus e
  let providerCode := chatErrProviderCode e
  if e.name = some "ProviderConfigError" then
    { code := "provider_config_error", status := 400 }
  else if e.name = some "ZodError" ∨ e.causeName = some "ZodError" then
    { code := "schema_validation_error", status := 400 }
  else if e.name = some "SyntaxError" ∨ messageMatchesCredentials e.message = true then
    { code := "invalid_provider_config", status := 400 }
  else
    match status with
    | some (.num 401) => { code := "unauthorized", status := 401 }
    | some (.num 403) => { code := "unauthorized", status := 403 }
    | some (.num 429) => { code := "rate_limited", status := 429 }
    | some (.num 503) => { code := "provider_unavailable", status := 503 }
    | some (.num 529) => { code := "provider_unavailable", status := 529 }
    | other =>
        { code := (jsOrO providerCode (some "generation_failed")).getD "",
          status := match other with
                    | some (.num n) => n
                    | _ => 500 }


/-! ## Circuit breaker and retry helper (`ErrorRecovery`) -/

/-- The breaker's three states. -/
inductive CBMode where
  | CLOSED
  | OPEN
  | HALF_OPEN
deriving DecidableEq, Repr

/-- The closure state of `ErrorRecovery.createCircuitBreaker`. -/
structure CBState where
  failures : Nat
  lastFailureTime : Nat
  mode : CBMode
deriving DecidableEq, Repr

/-- The state the closure starts with. -/
def cbInit : CBState := { failures := 0, lastFailureTime := 0, mode := .CLOSED }

/-- What one call of the wrapped closure did. -/
inductive CBOutcome where
  | failFast
  | invoked (success : Bool)
deriving DecidableEq, Repr

/-- One call of the closure returned by
`ErrorRecovery.createCircuitBreaker(operation, failureThreshold,
recoveryTimeout)`; the wrapped operation's outcome at this call is
`opSucceeds`.  Mirrors the source: OPEN moves to HALF_OPEN (zeroing
`failures`) once `now - lastFailureTime > recoveryTimeout`; OPEN fails fast;
otherwise the operation runs — success moves HALF_OPEN back to CLOSED and
zeroes `failures`, failure increments `failures`, refreshes
`lastFailureTime`, and opens the circuit only once `failures >=
failureThreshold`. -/
def circuitBreakerCall (failureThreshold recoveryTimeout : Nat) (s : CBState)
    (now : Nat) (opSucceeds : Bool) : CBOutcome × CBState :=
  let s :=
    if s.mode = .OPEN ∧ (now : Int) - s.lastFailureTime > recoveryTimeout then
      { s with mode := .HALF_OPEN, failures := 0 }
    else s
  if s.mode = .OPEN then (.failFast, s)
  else if opSucceeds then
    (.invoked true,
     { s with mode := if s.mode = .HALF_OPEN then .CLOSED else s.mode, failures := 0 })
  else
    let failures := s.failures + 1
    (.invoked false,
     { failures := failures, lastFailureTime := now,
       mode := if failures ≥ failureThreshold then .OPEN else s.mode })

/-- A sequence of calls of the breaker-wrapped closure: each element is the
call's `Date.now()` and the operation's outcome were it invoked. -/
def cbRun (failureThreshold recoveryTimeout : Nat) :
    CBState → List (Nat × Bool) → List CBOutcome × CBState
  | s, [] => ([], s)
  | s, (now, ok) :: rest =>
      let step := circuitBreakerCall failureThreshold recoveryTimeout s now ok
      let tail := cbRun failureThreshold recoveryTimeout step.2 rest
      (step.1 :: tail.1, tail.2)

/-- The helper `ErrorRecovery.retryWithBackoff(operation, maxRetries, baseDelay)`, with
the operation modelled as the sequence of outcomes of its successive
invocations.  Returns the result (`Except.error none` models the
`throw lastError!` fall-through with `lastError` still undefined, reachable
only for `maxRetries = 0`) together with the list of backoff delays slept, in
order.  `retryLoop` is iteration `i` of the source's `for` loop. -/
def retryLoop {E A : Type} (ops : Nat → Except E A) (maxRetries baseDelay : Nat) :
    Nat → Nat → Except (Option E) A × List Nat
  | _, 0 => (.error none, [])
  | i, remaining + 1 =>
      match ops i with
      | .ok a => (.ok a, [])
      | .error e =>
          if i = maxRetries - 1 then (.error (some e), [])
          else
            let delay := baseDelay * 2 ^ i
            let rest := retryLoop ops maxRetries baseDelay (i + 1) remaining
            (rest.1, delay :: rest.2)

/-- The entry point `ErrorRecovery.retryWithBackoff` itself: the loop started at `i = 0` with
`maxRetries` iterations remaining (the loop bound `i < maxRetries` is carried
as the structurally decreasing count `maxRetries - i`). -/
def retryWithBackoff {E A : Type} (ops : Nat → Except E A) (maxRetries baseDelay : Nat) :
    Except (Option E) A × List Nat :=
  retryLoop ops maxRetries baseDelay 0 maxRetries


/-! ## Fallback chain -/

/-- The list `FALLBACK_CONFIG.aiProviders`: the static provider priority list. -/
def aiProviders : List String := ["openai", "anthropic", "mistral", "groq"]

/-- JS `Array.prototype.indexOf`: index of the first occurrence, `-1` if absent. -/
def jsIndexOf (l : List String) (x : String) : Int :=
  match l with
  | [] => -1
  | y :: rest =>
      if y = x then 0
      else
        let r := jsIndexOf rest x
        if r = -1 then -1 else r + 1

/-- The function `FallbackManager.getFallbackProvider(currentProvider)`: the next provider
in `FALLBACK_CONFIG.aiProviders` after the first occurrence of
`currentProvider`, `null` when absent or already last. -/
def getFallbackProvider (currentProvider : String) : Option String :=
  let index := jsIndexOf aiProviders currentProvider
  if index = -1 ∨ index = (aiProviders.length : Int) - 1 then none
  else aiProviders.get? (index.toNat + 1)


/-- The `providerPriority` table of the chat route's fallback block:
(environment key, providerId, fallback model). -/
def providerPriority : List (String × String × String) :=
  [("GROQ_API_KEY", "groq", "llama-3.3-70b-versatile"),
   ("MISTRAL_API_KEY", "mistral", "mistral-large-latest"),
   ("OPENAI_API_KEY", "openai", "gpt-4o"),
   ("TOGETHER_API_KEY", "togetherai",
    "meta-llama/Meta-Llama-3.1-70B-Instruct-Turbo")]

/-- What the chat route's `ProviderConfigError` fallback block does.
`invokeOpenRouter` is the only branch that actually re-invokes a provider
(the OpenRouter raw stream); `logOnly` is the priority-loop branch, which
selects a fallback provider but only logs it; `noFallback` falls through to
the error normalizer. -/
inductive FallbackAction where
  | invokeOpenRouter (model : String)
  | logOnly (providerId : String) (model : String)
  | noFallback
deriving DecidableEq, Repr

/-- The priority loop of the fallback block: the first entry whose providerId
differs from the `provider` selector field (`providerSel`) and whose
environment key is truthy. -/
def priorityLoop (env : Env) (providerSel : String) :
    List (String × String × String) → FallbackAction
  | [] => .noFallback
  | (key, providerId, fallbackModel) :: rest =>
      if providerSel = providerId then priorityLoop env providerSel rest
      else if optTruthy (envGet env key) then .logOnly providerId fallbackModel
      else priorityLoop env providerSel rest

/-- The fallback block the chat `POST` handler runs when the caught error is
a `ProviderConfigError` (`src/app/api/chat/route.ts`).  First branch: when
`OPENROUTER_API_KEY` is truthy and the request's `provider` selector is not
`openrouter`, re-run generation through the OpenRouter raw stream with model
`modelOverride || config.model || model.id || 'openrouter/auto'`.  Otherwise
walk `providerPriority`. -/
def chatFallback (env : Env) (providerSel : String) (modelOverride : Option String)
    (config : LLMModelConfig) (model : LLMModel) : FallbackAction :=
  if optTruthy (envGet env "OPENROUTER_API_KEY") = true ∧ providerSel ≠ "openrouter" then
    .invokeOpenRouter
      ((jsOrO modelOverride
        (jsOrO config.model (jsOrO (some model.id) (some "openrouter/auto")))).getD "")
  else priorityLoop env providerSel providerPriority

/-! ## Streaming pipeline (raw-mode SSE stream of the chat route) -/

/-- One SSE frame of the raw-mode stream: a token `data:` frame, the
`[heartbeat]` frame, or the terminal `[done]` sentinel. -/
inductive Frame where
  | token (s : String)
  | heartbeat
  | done
deriving DecidableEq, Repr

/-- The frames the raw-mode SSE stream emits for a provider call that yields
`tokens` and then completes.  The heartbeat `setInterval` runs concurrently
with token production and can fire only while the stream body is suspended at
an `await`; the suspension points are just before each token arrives and just
before the generator reports completion.  `sched j` is the number of
heartbeat ticks that fire during suspension point `j` (so an arbitrary
interleaving is quantified by `sched`).  After the final suspension the body
synchronously sends `[done]`, clears the interval and closes — so nothing can
interleave there. -/
def sseRun (tokens : List String) (sched : Nat → Nat) (j : Nat) : List Frame :=
  match tokens with
  | [] => List.replicate (sched j) .heartbeat ++ [.done]
  | t :: ts => List.replicate (sched j) .heartbeat ++ .token t :: sseRun ts sched (j + 1)

/-- The token carried by a frame, if any. -/
def frameToken : Frame → Option String
  | .token s => some s
  | _ => none


/-! ## Request validation and the chat `POST` ingress -/

/-- A required field of a zod object schema: present and satisfying `p`. -/
def zodReq (fields : List (String × JsValue)) (k : String) (p : JsValue → Bool) : Bool :=
  match jsGet (JsValue.obj fields) k with
  | some v => p v
  | none => false

/-- An optional field of a zod object schema: absent, or satisfying `p`. -/
def zodOpt (fields : List (String × JsValue)) (k : String) (p : JsValue → Bool) : Bool :=
  match jsGet (JsValue.obj fields) k with
  | some v => p v
  | none => true

/-- Zod `z.string()`. -/
def isJsString : JsValue → Bool
  | .str _ => true
  | _ => false

/-- Zod `z.array(z.any())`. -/
def isJsArray : JsValue → Bool
  | .arr _ => true
  | _ => false

/-- Zod `z.number().min(lo).max(hi)`. -/
def isNumBetween (lo hi : Rat) (v : JsValue) : Bool :=
  match v with
  | .num q => lo ≤ q && q ≤ hi
  | _ => false

/-- Zod `z.number().min(lo)`. -/
def isNumMin (lo : Rat) (v : JsValue) : Bool :=
  match v with
  | .num q => lo ≤ q
  | _ => false

/-- Zod `z.number()`. -/
def isJsNum : JsValue → Bool
  | .num _ => true
  | _ => false

/-- Zod `z.enum(values)`. -/
def isJsEnum (values : List String) (v : JsValue) : Bool :=
  match v with
  | .str s => values.contains s
  | _ => false

/-- The schema check `ChatRequestSchema.safeParse(data).success` from
`src/app/api/chat/route.ts`: `messages` an array; `userID`/`teamID` optional
strings; `template` anything (including absent, as `z.any()` accepts
`undefined`); `model` an object of four required strings; `config` an object
of optional generation parameters with `temperature` in `[0, 2]`, `topP` in
`[0, 1]`, `topK >= 0`, `maxTokens >= 1`; `mode` and `provider` optional
enums; `apiKey` and `modelOverride` optional strings. -/
def validChatRequest (v : JsValue) : Bool :=
  match v with
  | .obj fields =>
      zodReq fields "messages" isJsArray &&
      zodOpt fields "userID" isJsString &&
      zodOpt fields "teamID" isJsString &&
      zodReq fields "model" (fun m =>
        match m with
        | .obj mf =>
            zodReq mf "id" isJsString && zodReq mf "name" isJsString &&
            zodReq mf "provider" isJsString && zodReq mf "providerId" isJsString
        | _ => false) &&
      zodReq fields "config" (fun c =>
        match c with
        | .obj cf =>
            zodOpt cf "model" isJsString && zodOpt cf "apiKey" isJsString &&
            zodOpt cf "baseURL" isJsString &&
            zodOpt cf "temperature" (isNumBetween 0 2) &&
            zodOpt cf "topP" (isNumBetween 0 1) &&
            zodOpt cf "topK" (isNumMin 0) &&
            zodOpt cf "frequencyPenalty" isJsNum &&
            zodOpt cf "presencePenalty" isJsNum &&
            zodOpt cf "maxTokens" (isNumMin 1)
        | _ => false) &&
      zodOpt fields "mode" (isJsEnum ["text", "ast", "raw"]) &&
      zodOpt fields "provider" (isJsEnum ["default", "openrouter"]) &&
      zodOpt fields "apiKey" isJsString &&
      zodOpt fields "modelOverride" isJsString
  | _ => false

/-- A string field of the parsed body, as the handler destructures it. -/
def bodyStringField (v : JsValue) (k : String) : Option String :=
  match jsGet v k with
  | some (.str s) => some s
  | _ => none

/-- The outcome of the chat `POST` ingress (the handler prefix up to and
including rate limiting): an early JSON error response (`error.code`, HTTP
status) or a pass into client resolution / generation; plus the bucket map
after the call and whether the rate limiter and the provider resolver were
reached. -/
structure IngressOutcome where
  response : Option (String × Int)
  buckets : Buckets
  rateLimiterReached : Bool
  resolverReached : Bool

/-- The chat `POST` handler prefix (`src/app/api/chat/route.ts`):
`methodGuard(req, ['POST'])`, then `parseJson(ChatRequestSchema)(req)`
(a body that is not parseable JSON → `invalid_json` 400; a parseable body
failing the schema → `invalid_request` 400), then the rate-limit block
(`getClientKey` with the body's `userID`/`teamID`, then the limiter — the
in-process path, as the distributed store is not configured here; on
disallow → `rate_limited` 429).  Only when all of these pass does the
handler go on to resolve the provider client. -/
def chatPostIngress (req : Request) (maxRequests : Int) (windowMs : Nat)
    (now : Nat) (buckets : Buckets) : IngressOutcome :=
  if !(["POST"].contains req.method) then
    { response := some ("method_not_allowed", 405), buckets := buckets,
      rateLimiterReached := false, resolverReached := false }
  else
    match req.body with
    | none =>
        { response := some ("invalid_json", 400), buckets := buckets,
          rateLimiterReached := false, resolverReached := false }
    | some data =>
        if !validChatRequest data then
          { response := some ("invalid_request", 400), buckets := buckets,
            rateLimiterReached := false, resolverReached := false }
        else
          let key := getClientKey req
            { userID := bodyStringField data "userID",
              teamID := bodyStringField data "teamID" }
          let rl := memoryRateLimit key maxRequests windowMs now buckets
          if !rl.1.allowed then
            { response := some ("rate_limited", 429), buckets := rl.2,
              rateLimiterReached := true, resolverReached := false }
          else
            { response := none, buckets := rl.2,
              rateLimiterReached := true, resolverReached := true }

/-- The canonical error-code taxonomy of the error normalizer (spec §4.3). -/
def canonicalErrorCodes : List String :=
  ["provider_config_error", "schema_validation_error", "invalid_provider_config",
   "rate_limited", "unauthorized", "provider_unavailable", "generation_failed"]

/-- The providerIds for which `getModelClient` enforces API-key presence
(every dispatch-table entry except `ollama` and `vertex`). -/
def keyRequiringProviderIds : List String :=
  ["anthropic", "openai", "google", "mistral", "groq", "togetherai",
   "fireworks", "xai", "deepseek"]

/-- Every providerId in the `providerConfigs` dispatch table. -/
def knownProviderIds : List String :=
  ["anthropic", "openai", "google", "mistral", "groq", "togetherai",
   "ollama", "fireworks", "vertex", "xai", "deepseek"]

/-- The environment variable the resolver consults for a key-requiring
provider's API key. -/
def providerEnvKey : String → String
  | "anthropic" => "ANTHROPIC_API_KEY"
  | "openai" => "OPENAI_API_KEY"
  | "google" => "GOOGLE_AI_API_KEY"
  | "mistral" => "MISTRAL_API_KEY"
  | "groq" => "GROQ_API_KEY"
  | "togetherai" => "TOGETHER_API_KEY"
  | "fireworks" => "FIREWORKS_API_KEY"
  | "xai" => "XAI_API_KEY"
  | "deepseek" => "DEEPSEEK_API_KEY"
  | _ => ""

/-! # Theorems -/

/-! ## C1: the in-process rate limiter over one window -/

theorem bucketsGet_set_self (b : Buckets) (key : String) (e : Entry) :
    bucketsGet (bucketsSet b key e) key = some e := by
  induction b with
  | nil => simp [bucketsGet, bucketsSet]
  | cons hd tl ih =>
      obtain ⟨k, e'⟩ := hd
      by_cases h : k = key
      · simp [bucketsGet, bucketsSet, h]
      · simp [bucketsGet, bucketsSet, h, ih]

/-- Behaviour of a run of `memoryRateLimit` calls on one key while its bucket
entry `⟨c, R⟩` is live (every call strictly before `R`): call `i` is allowed
with `remaining = n - (c + i + 1)` while `c + i < n`, and otherwise rejected
with `retryAfterMs = R - t`. -/
theorem simCalls_counting (key : String) (n windowMs R : Nat) :
    ∀ (ts : List Nat) (c : Nat) (b : Buckets),
      bucketsGet b key = some ⟨c, R⟩ →
      (∀ t ∈ ts, t < R) →
      c ≤ n →
      ∀ (i : Nat) (t : Nat), ts.get? i = some t →
        (simCalls key (n : Int) windowMs ts b).1.get? i =
          some (if c + i < n then ⟨true, (n : Int) - ((c + i + 1 : Nat) : Int), none⟩
                else ⟨false, 0, some (R - t)⟩) := by
  intro ts
  induction ts with
  | nil => intro c b _ _ _ i t hit; simp [List.get?] at hit
  | cons t0 rest ih =>
      intro c b hb hwin hc i t hit
      have ht0R : t0 < R := hwin t0 (List.mem_cons_self _ _)
      have hnotreset : ¬ (R ≤ t0) := Nat.not_le.mpr ht0R
      match i with
      | 0 =>
          simp only [List.get?] at hit
          cases hit
          by_cases hlt : c < n
          · have hlt' : (c : Int) < (n : Int) := by exact_mod_cast hlt
            simp [simCalls, memoryRateLimit, hb, hnotreset, hlt', hlt, List.get?]
          · have hlt' : ¬ ((c : Int) < (n : Int)) := by exact_mod_cast hlt
            have hcond : ¬ (c + 0 < n) := by omega
            simp [simCalls, memoryRateLimit, hb, hnotreset, hlt', hcond, List.get?]
            rw [if_neg hlt]
      | j + 1 =>
          simp only [List.get?] at hit
          by_cases hlt : c < n
          · have hlt' : (c : Int) < (n : Int) := by exact_mod_cast hlt
            have hb' : bucketsGet (bucketsSet b key ⟨c + 1, R⟩) key = some ⟨c + 1, R⟩ :=
              bucketsGet_set_self b key _
            have := ih (c + 1) (bucketsSet b key ⟨c + 1, R⟩) hb'
              (fun u hu => hwin u (List.mem_cons_of_mem _ hu))
              (by omega) j t hit
            simp only [simCalls, memoryRateLimit, hb, if_neg hnotreset, if_pos hlt', List.get?]
            rw [this]
            congr 1
            have harith : c + 1 + j = c + (j + 1) := by omega
            rw [harith]
          · have hceq : c = n := Nat.le_antisymm hc (Nat.le_of_not_lt hlt)
            have hlt' : ¬ ((c : Int) < (n : Int)) := by exact_mod_cast hlt
            have := ih c b hb
              (fun u hu => hwin u (List.mem_cons_of_mem _ hu))
              hc j t hit
            simp only [simCalls, memoryRateLimit, hb, if_neg hnotreset, if_neg hlt', List.get?]
            rw [this]
            congr 1
            have h1 : ¬ (c + j < n) := by omega
            have h2 : ¬ (c + (j + 1) < n) := by omega
            rw [if_neg h1, if_neg h2]

/-- C1 (corrected: the quantification over `max` must exclude `max = 0`, see
`memoryRateLimit_max_zero_allows`).  For every clientKey, `max ≥ 1` and
windowMs, when the in-process rate limiter is used: the first `max` calls
whose timestamps fall within one window all return `allowed = true` with
strictly decreasing `remaining` starting at `max - 1` (call `i` returns
`remaining = max - (i+1)`), and the `(max+1)`-th call in that same window
returns `allowed = false` with `retryAfterMs > 0`. -/
theorem memoryRateLimit_window_exhaustion
    (key : String) (n windowMs t0 : Nat) (ts : List Nat)
    (hn : 1 ≤ n) (hlen : ts.length = n)
    (hwin : ∀ t ∈ ts, t < t0 + windowMs) :
    (∀ i, i < n →
      (simCalls key (n : Int) windowMs (t0 :: ts) []).1.get? i =
        some ⟨true, (n : Int) - ((i + 1 : Nat) : Int), none⟩) ∧
    (∃ r, (simCalls key (n : Int) windowMs (t0 :: ts) []).1.get? n =
        some ⟨false, 0, some r⟩ ∧ 0 < r) := by
  have hfirst :
      memoryRateLimit key (n : Int) windowMs t0 [] =
        ({ allowed := true, remaining := (n : Int) - 1 },
         [(key, ⟨1, t0 + windowMs⟩)]) := by
    simp [memoryRateLimit, bucketsGet, bucketsSet]
  have hb1 : bucketsGet [(key, ⟨1, t0 + windowMs⟩)] key = some ⟨1, t0 + windowMs⟩ := by
    simp [bucketsGet]
  have hcount := simCalls_counting key n windowMs (t0 + windowMs) ts 1
      [(key, ⟨1, t0 + windowMs⟩)] hb1 hwin hn
  constructor
  · intro i hi
    match i with
    | 0 =>
        simp [simCalls, hfirst, List.get?]
    | j + 1 =>
        have hj : j < ts.length := by omega
        have ht := List.get?_eq_get hj
        have := hcount j _ ht
        have hcond : 1 + j < n := by omega
        rw [if_pos hcond] at this
        simp only [simCalls, hfirst, List.get?]
        rw [this]
        congr 3
        omega
  · obtain ⟨m, rfl⟩ : ∃ m, n = m + 1 := ⟨n - 1, by omega⟩
    have hlast : m < ts.length := by omega
    have ht := List.get?_eq_get hlast
    have hres := hcount m _ ht
    have hcond : ¬ (1 + m < m + 1) := by omega
    rw [if_neg hcond] at hres
    refine ⟨t0 + windowMs - ts.get ⟨m, hlast⟩, ?_, ?_⟩
    · simp only [simCalls, hfirst, List.get?]
      exact hres
    · have htmem : ts.get ⟨m, hlast⟩ ∈ ts := List.get?_mem ht
      have := hwin _ htmem
      omega

/-- Witness for C1: `max = 2`, `windowMs = 1000`, calls at times `0, 1, 2`. -/
theorem memoryRateLimit_window_exhaustion_witness :
    (∀ i, i < 2 →
      (simCalls "uid:alice" (2 : Int) 1000 [0, 1, 2] []).1.get? i =
        some ⟨true, (2 : Int) - ((i + 1 : Nat) : Int), none⟩) ∧
    (∃ r, (simCalls "uid:alice" (2 : Int) 1000 [0, 1, 2] []).1.get? 2 =
        some ⟨false, 0, some r⟩ ∧ 0 < r) :=
  memoryRateLimit_window_exhaustion "uid:alice" 2 1000 0 [1, 2]
    (by decide) (by decide) (by decide)

/-- Counterexample to C1 as stated: with `max = 0` the claim demands the very
first call of the window (the `(max+1)`-th) be disallowed, but the reset
branch of `memoryRateLimit` allows it unconditionally (`remaining = -1`). -/
theorem memoryRateLimit_max_zero_allows :
    (memoryRateLimit "uid:alice" (0 : Int) 1000 0 []).1.allowed = true ∧
    ¬ ((memoryRateLimit "uid:alice" (0 : Int) 1000 0 []).1.allowed = false) ∧
    (memoryRateLimit "uid:alice" (0 : Int) 1000 0 []).1.remaining = -1 := by
  refine ⟨rfl, ?_, rfl⟩
  intro h
  simp [memoryRateLimit, bucketsGet] at h

/-! ## C9: client-key derivation priority -/

/-- Counterexample to C9 as stated: with no userID, no teamID and no
`x-forwarded-for` header, the claim demands the literal `unknown` sentinel,
but a request carrying an `x-real-ip` header gets that IP instead —
`getClientKey` has an extra `x-real-ip` fallback the claim omits. -/
theorem getClientKey_xRealIp_counterexample :
    getClientKey ⟨"POST", [("x-real-ip", "203.0.113.7")], none⟩ {} = "ip:203.0.113.7" ∧
    getClientKey ⟨"POST", [("x-real-ip", "203.0.113.7")], none⟩ {} ≠ "ip:unknown" ∧
    headerGet ⟨"POST", [("x-real-ip", "203.0.113.7")], none⟩ "x-forwarded-for" = none := by
  refine ⟨rfl, ?_, rfl⟩
  decide

/-- C9 (corrected: the code falls back to the `x-real-ip` header between the
forwarded-for header and the `unknown` sentinel, and every derived key is
prefixed with its source).  For every request, `getClientKey` derives the
rate-limit subject with exactly this priority: a truthy explicit userID
(`uid:`-prefixed), else a truthy explicit teamID (`tid:`-prefixed), else the
first comma-separated IP of `x-forwarded-for` when non-empty after trimming,
else a truthy `x-real-ip` header, else the literal `unknown` — the last three
`ip:`-prefixed. -/
theorem getClientKey_priority (req : Request) (opts : ClientKeyOpts) :
    (optTruthy opts.userID = true →
      getClientKey req opts = "uid:" ++ opts.userID.getD "") ∧
    (optTruthy opts.userID = false → optTruthy opts.teamID = true →
      getClientKey req opts = "tid:" ++ opts.teamID.getD "") ∧
    (optTruthy opts.userID = false → optTruthy opts.teamID = false →
      strTruthy (forwardedFirstHop req) = true →
      getClientKey req opts = "ip:" ++ forwardedFirstHop req) ∧
    (∀ r, optTruthy opts.userID = false → optTruthy opts.teamID = false →
      strTruthy (forwardedFirstHop req) = false →
      headerGet req "x-real-ip" = some r → strTruthy r = true →
      getClientKey req opts = "ip:" ++ r) ∧
    (optTruthy opts.userID = false → optTruthy opts.teamID = false →
      strTruthy (forwardedFirstHop req) = false →
      (headerGet req "x-real-ip" = none ∨
        ∃ r, headerGet req "x-real-ip" = some r ∧ strTruthy r = false) →
      getClientKey req opts = "ip:unknown") := by
  refine ⟨?_, ?_, ?_, ?_, ?_⟩
  · intro hu
    simp [getClientKey, hu]
  · intro hu ht
    simp [getClientKey, hu, ht]
  · intro hu ht hf
    simp [getClientKey, hu, ht, hf]
  · intro r hu ht hf hr hrt
    simp [getClientKey, hu, ht, hf, hr, hrt]
  · intro hu ht hf hreal
    rcases hreal with hnone | ⟨r, hr, hrf⟩
    · simp [getClientKey, hu, ht, hf, hnone]
    · simp [getClientKey, hu, ht, hf, hr, hrf]

/-- Witness for C9 at concrete requests: one per priority clause. -/
theorem getClientKey_priority_witness :
    getClientKey ⟨"POST", [], none⟩ { userID := some "alice" } = "uid:alice" ∧
    getClientKey ⟨"POST", [], none⟩ { teamID := some "team9" } = "tid:team9" ∧
    getClientKey ⟨"POST", [("x-forwarded-for", " 9.9.9.9 , 8.8.8.8")], none⟩ {} = "ip:9.9.9.9" ∧
    getClientKey ⟨"POST", [("x-real-ip", "203.0.113.7")], none⟩ {} = "ip:203.0.113.7" ∧
    getClientKey ⟨"POST", [], none⟩ {} = "ip:unknown" := by
  refine ⟨?_, ?_, ?_, ?_, ?_⟩
  · exact (getClientKey_priority ⟨"POST", [], none⟩ { userID := some "alice" }).1 (by decide)
  · exact (getClientKey_priority ⟨"POST", [], none⟩ { teamID := some "team9" }).2.1
      (by decide) (by decide)
  · have h := (getClientKey_priority
      ⟨"POST", [("x-forwarded-for", " 9.9.9.9 , 8.8.8.8")], none⟩ {}).2.2.1
      (by decide) (by decide) (by decide)
    simpa using h
  · exact (getClientKey_priority ⟨"POST", [("x-real-ip", "203.0.113.7")], none⟩ {}).2.2.2.1
      "203.0.113.7" (by decide) (by decide) (by decide) (by decide) (by decide)
  · exact (getClientKey_priority ⟨"POST", [], none⟩ {}).2.2.2.2
      (by decide) (by decide) (by decide) (Or.inl (by decide))

/-! ## C2: circuit-breaker state machine -/

/-- Evidence for C2's divergence from the code (`failureThreshold = 2`,
`recoveryTimeout = 10`): two failures at `t = 0, 1` open the circuit and a
call at `t = 5` fails fast; the HALF_OPEN trial at `t = 20` fails, yet the
breaker stays HALF_OPEN (entering HALF_OPEN zeroed `failures`, and one
failure is below the threshold), so the next call at `t = 21` invokes the
operation again instead of failing fast as the claimed re-opening would
require. -/
theorem circuitBreaker_failed_trial_does_not_reopen :
    (cbRun 2 10 cbInit [(0, false), (1, false)]).2.mode = CBMode.OPEN ∧
    (cbRun 2 10 cbInit [(0, false), (1, false), (5, false)]).1.get? 2 =
      some CBOutcome.failFast ∧
    (cbRun 2 10 cbInit [(0, false), (1, false), (20, false)]).2.mode =
      CBMode.HALF_OPEN ∧
    (cbRun 2 10 cbInit [(0, false), (1, false), (20, false), (21, false)]).1.get? 3 =
      some (CBOutcome.invoked false) := by
  decide

/-! ## C8: retry with exponential backoff -/

/-- Behaviour of `retryLoop` when the first success among the attempts still to be made is
attempt `j`: the loop returns that success, having slept
`baseDelay * 2 ^ k` after each failed attempt `k`. -/
theorem retryLoop_first_success {E A : Type} (ops : Nat → Except E A)
    (maxRetries baseDelay : Nat) (a : A) :
    ∀ (remaining i j : Nat), i + remaining = maxRetries →
      i ≤ j → j < maxRetries →
      (∀ k, i ≤ k → k < j → ∃ e, ops k = .error e) →
      ops j = .ok a →
      retryLoop ops maxRetries baseDelay i remaining =
        (.ok a, (List.range (j - i)).map (fun k => baseDelay * 2 ^ (i + k))) := by
  intro remaining
  induction remaining with
  | zero => intro i j hsum hij hjmax _ _; omega
  | succ r ih =>
      intro i j hsum hij hjmax hfail hok
      by_cases hieq : i = j
      · subst hieq
        simp [retryLoop, hok]
      · obtain ⟨e, he⟩ := hfail i (le_refl i) (by omega)
        have hne : ¬ (i = maxRetries - 1) := by omega
        have hrec := ih (i + 1) j (by omega) (by omega) hjmax
          (fun k hk1 hk2 => hfail k (by omega) hk2) hok
        simp only [retryLoop, he, if_neg hne, hrec]
        have hji : j - i = (j - (i + 1)) + 1 := by omega
        rw [hji, List.range_succ_eq_map, List.map_cons, List.map_map]
        congr 1
        congr 1
        apply List.map_congr_left
        intro k _
        have hx : i + 1 + k = i + Nat.succ k := by omega
        simp [Function.comp_apply, hx]

/-- Behaviour of `retryLoop` when every remaining attempt fails: the loop rethrows the
error of the final attempt `maxRetries - 1`. -/
theorem retryLoop_exhausted {E A : Type} (ops : Nat → Except E A)
    (maxRetries baseDelay : Nat) (e : E) :
    ∀ (remaining i : Nat), i + remaining = maxRetries → 1 ≤ remaining →
      (∀ k, i ≤ k → k < maxRetries → ∃ e', ops k = .error e') →
      ops (maxRetries - 1) = .error e →
      retryLoop ops maxRetries baseDelay i remaining =
        (.error (some e),
         (List.range (maxRetries - 1 - i)).map (fun k => baseDelay * 2 ^ (i + k))) := by
  intro remaining
  induction remaining with
  | zero => intro i _ h1; omega
  | succ r ih =>
      intro i hsum _ hfail hlast
      by_cases hieq : i = maxRetries - 1
      · subst hieq
        have hr : r = 0 := by omega
        subst hr
        simp [retryLoop, hlast]
      · obtain ⟨e', he'⟩ := hfail i (le_refl i) (by omega)
        have hrec := ih (i + 1) (by omega) (by omega)
          (fun k hk1 hk2 => hfail k (by omega) hk2) hlast
        simp only [retryLoop, he', if_neg hieq, hrec]
        have hji : maxRetries - 1 - i = (maxRetries - 1 - (i + 1)) + 1 := by omega
        rw [hji, List.range_succ_eq_map, List.map_cons, List.map_map]
        congr 1
        congr 1
        apply List.map_congr_left
        intro k _
        have hx : i + 1 + k = i + Nat.succ k := by omega
        simp [Function.comp_apply, hx]

/-- C8: for every operation, `maxRetries ≥ 1` and `baseDelayMs`,
`retryWithBackoff` makes at most `maxRetries` attempts; it returns the first
successful result, sleeping `baseDelayMs * 2 ^ attempt` after each failed
attempt `attempt` (equivalently: before the `attempt`-th retry, counting
retries from 0); and once all `maxRetries` attempts have failed it re-raises
exactly the error of the last attempt. -/
theorem retryWithBackoff_spec {E A : Type} (ops : Nat → Except E A)
    (maxRetries baseDelay : Nat) (hmax : 1 ≤ maxRetries) :
    (∀ (j : Nat) (a : A), j < maxRetries →
      (∀ k, k < j → ∃ e, ops k = .error e) →
      ops j = .ok a →
      retryWithBackoff ops maxRetries baseDelay =
        (.ok a, (List.range j).map (fun k => baseDelay * 2 ^ k))) ∧
    (∀ (e : E),
      (∀ k, k < maxRetries → ∃ e', ops k = .error e') →
      ops (maxRetries - 1) = .error e →
      retryWithBackoff ops maxRetries baseDelay =
        (.error (some e),
         (List.range (maxRetries - 1)).map (fun k => baseDelay * 2 ^ k))) := by
  constructor
  · intro j a hj hfail hok
    have h := retryLoop_first_success ops maxRetries baseDelay a maxRetries 0 j
      (by omega) (by omega) hj (fun k _ hk2 => hfail k hk2) hok
    simpa [retryWithBackoff] using h
  · intro e hfail hlast
    have h := retryLoop_exhausted ops maxRetries baseDelay e maxRetries 0
      (by omega) (by omega) (fun k _ hk2 => hfail k hk2) hlast
    simpa [retryWithBackoff] using h

/-- Witness for C8: an operation failing twice then succeeding, and one
failing always, with `maxRetries = 3`, `baseDelay = 100`. -/
theorem retryWithBackoff_spec_witness :
    retryWithBackoff (fun i => if i < 2 then .error (toString i) else .ok 42) 3 100 =
      (.ok 42, [100, 200]) ∧
    retryWithBackoff (E := String) (A := Nat) (fun i => .error (toString i)) 3 100 =
      (.error (some "2"), [100, 200]) := by
  constructor
  · have h := (retryWithBackoff_spec
        (fun i => if i < 2 then .error (toString i) else .ok 42) 3 100 (by omega)).1
        2 42 (by omega) (fun k hk => ⟨toString k, by simp [hk]⟩) (by simp)
    simpa using h
  · have h := (retryWithBackoff_spec (E := String) (A := Nat)
        (fun i => .error (toString i)) 3 100 (by omega)).2
        "2" (fun k _ => ⟨toString k, rfl⟩) rfl
    simpa using h

/-! ## C6: raw-mode SSE frame ordering -/

/-- Decomposition of every raw-mode SSE run: some prefix free of the sentinel
followed by exactly one `[done]`, with the tokens of the prefix being the
produced tokens in order. -/
theorem sseRun_decomp (tokens : List String) (sched : Nat → Nat) :
    ∀ j, ∃ pre, sseRun tokens sched j = pre ++ [Frame.done] ∧
      (∀ f ∈ pre, f ≠ Frame.done) ∧
      pre.filterMap frameToken = tokens := by
  induction tokens with
  | nil =>
      intro j
      refine ⟨List.replicate (sched j) Frame.heartbeat, rfl, ?_, ?_⟩
      · intro f hf
        rw [List.eq_of_mem_replicate hf]
        simp
      · simp [List.filterMap_replicate, frameToken]
  | cons t ts ih =>
      intro j
      obtain ⟨pre, heq, hnd, htok⟩ := ih (j + 1)
      refine ⟨List.replicate (sched j) Frame.heartbeat ++ Frame.token t :: pre, ?_, ?_, ?_⟩
      · simp only [sseRun, heq]
        simp
      · intro f hf
        rcases List.mem_append.mp hf with hf | hf
        · rw [List.eq_of_mem_replicate hf]
          simp
        · rcases List.mem_cons.mp hf with rfl | hf
          · simp
          · exact hnd f hf
      · simp [List.filterMap_append, List.filterMap_replicate, frameToken, htok]

/-- C6: for every finite token sequence produced by the provider and every
heartbeat interleaving, the raw-mode SSE stream emits one token frame per
token in production order, then the terminal `[done]` sentinel, and no frame
of any kind after the sentinel (the sentinel is the last frame and occurs
nowhere earlier); in particular `["a", "b", "c"]` with no heartbeat ticks
produces exactly `a, b, c, [done]`, and heartbeat frames only ever appear
before `[done]`. -/
theorem sseRun_frames_ordered :
    (∀ (tokens : List String) (sched : Nat → Nat),
      ∃ pre, sseRun tokens sched 0 = pre ++ [Frame.done] ∧
        (∀ f ∈ pre, f ≠ Frame.done) ∧
        pre.filterMap frameToken = tokens) ∧
    sseRun ["a", "b", "c"] (fun _ => 0) 0 =
      [.token "a", .token "b", .token "c", .done] ∧
    sseRun ["a", "b", "c"] (fun j => if j = 3 then 2 else 0) 0 =
      [.token "a", .token "b", .token "c", .heartbeat, .heartbeat, .done] := by
  refine ⟨fun tokens sched => sseRun_decomp tokens sched 0, rfl, rfl⟩

/-- Witness for C6 at a concrete token list and heartbeat schedule. -/
theorem sseRun_frames_ordered_witness :
    ∃ pre, sseRun ["x"] (fun _ => 1) 0 = pre ++ [Frame.done] ∧
      (∀ f ∈ pre, f ≠ Frame.done) ∧
      pre.filterMap frameToken = ["x"] :=
  sseRun_frames_ordered.1 ["x"] (fun _ => 1)

/-! ## C3: error-normalization priority mapping -/

/-- Counterexample to C3 as stated: an error carrying only a provider error
code (`error.code = "insufficient_quota"`, no recognized name, no status)
falls to the default arm, whose code is `providerCode || 'generation_failed'`
— so the response code is the provider's own code, not `generation_failed`
as the claim requires for "any other error". -/
theorem normalizeChatError_provider_code_counterexample :
    normalizeChatError { code := some "insufficient_quota" } =
      { code := "insufficient_quota", status := 500 } ∧
    normalizeChatError { code := some "insufficient_quota" } ≠
      { code := "generation_failed", status := 500 } := by
  constructor
  · rfl
  · decide

/-- C3 (corrected: the default arm returns the error's own provider code —
`error.code ?? error.error.code ?? error.response.data.error.code` — when
that is a truthy string, and `generation_failed` only otherwise).  For every
error caught by the chat `POST` handler the normalized response follows the
priority mapping: `ProviderConfigError` → `provider_config_error`/400;
`ZodError` (directly or as cause) → `schema_validation_error`/400;
`SyntaxError` or a credentials-pattern message → `invalid_provider_config`/400;
then by coalesced status: 401/403 → `unauthorized`, 429 → `rate_limited`,
503/529 → `provider_unavailable`; anything else →
`providerCode || 'generation_failed'` with the original status when numeric,
else 500. -/
theorem normalizeChatError_mapping (e : JsError) :
    (e.name = some "ProviderConfigError" →
      normalizeChatError e = { code := "provider_config_error", status := 400 }) ∧
    (e.name ≠ some "ProviderConfigError" →
      (e.name = some "ZodError" ∨ e.causeName = some "ZodError") →
      normalizeChatError e = { code := "schema_validation_error", status := 400 }) ∧
    (e.name ≠ some "ProviderConfigError" → e.name ≠ some "ZodError" →
      e.causeName ≠ some "ZodError" →
      (e.name = some "SyntaxError" ∨ messageMatchesCredentials e.message = true) →
      normalizeChatError e = { code := "invalid_provider_config", status := 400 }) ∧
    (∀ n : Int, e.name ≠ some "ProviderConfigError" → e.name ≠ some "ZodError" →
      e.causeName ≠ some "ZodError" → e.name ≠ some "SyntaxError" →
      messageMatchesCredentials e.message = false →
      chatErrStatus e = some (.num n) → (n = 401 ∨ n = 403) →
      normalizeChatError e = { code := "unauthorized", status := n }) ∧
    (e.name ≠ some "ProviderConfigError" → e.name ≠ some "ZodError" →
      e.causeName ≠ some "ZodError" → e.name ≠ some "SyntaxError" →
      messageMatchesCredentials e.message = false →
      chatErrStatus e = some (.num 429) →
      normalizeChatError e = { code := "rate_limited", status := 429 }) ∧
    (∀ n : Int, e.name ≠ some "ProviderConfigError" → e.name ≠ some "ZodError" →
      e.causeName ≠ some "ZodError" → e.name ≠ some "SyntaxError" →
      messageMatchesCredentials e.message = false →
      chatErrStatus e = some (.num n) → (n = 503 ∨ n = 529) →
      normalizeChatError e = { code := "provider_unavailable", status := n }) ∧
    (∀ n : Int, e.name ≠ some "ProviderConfigError" → e.name ≠ some "ZodError" →
      e.causeName ≠ some "ZodError" → e.name ≠ some "SyntaxError" →
      messageMatchesCredentials e.message = false →
      chatErrStatus e = some (.num n) →
      n ∉ ([401, 403, 429, 503, 529] : List Int) →
      normalizeChatError e =
        { code := (jsOrO (chatErrProviderCode e) (some "generation_failed")).getD "",
          status := n }) ∧
    (e.name ≠ some "ProviderConfigError" → e.name ≠ some "ZodError" →
      e.causeName ≠ some "ZodError" → e.name ≠ some "SyntaxError" →
      messageMatchesCredentials e.message = false →
      (∀ n : Int, chatErrStatus e ≠ some (.num n)) →
      normalizeChatError e =
        { code := (jsOrO (chatErrProviderCode e) (some "generation_failed")).getD "",
          status := 500 }) := by
  refine ⟨?_, ?_, ?_, ?_, ?_, ?_, ?_, ?_⟩
  · intro h
    simp [normalizeChatError, h]
  · intro h1 h2
    simp [normalizeChatError, h1, h2]
  · intro h1 h2 h3 h4
    simp [normalizeChatError, h1, h2, h3, h4]
  · intro n h1 h2 h3 h4 h5 hst hn
    rcases hn with rfl | rfl <;>
      simp [normalizeChatError, h1, h2, h3, h4, h5, hst]
  · intro h1 h2 h3 h4 h5 hst
    simp [normalizeChatError, h1, h2, h3, h4, h5, hst]
  · intro n h1 h2 h3 h4 h5 hst hn
    rcases hn with rfl | rfl <;>
      simp [normalizeChatError, h1, h2, h3, h4, h5, hst]
  · intro n h1 h2 h3 h4 h5 hst hn
    simp only [List.mem_cons, List.not_mem_nil, or_false, not_or] at hn
    obtain ⟨hn1, hn2, hn3, hn4, hn5⟩ := hn
    simp only [normalizeChatError, if_neg h1, hst]
    rw [if_neg, if_neg]
    · split
      · rename_i heq; rw [Option.some_inj] at heq; cases heq; exact absurd rfl hn1
      · rename_i heq; rw [Option.some_inj] at heq; cases heq; exact absurd rfl hn2
      · rename_i heq; rw [Option.some_inj] at heq; cases heq; exact absurd rfl hn3
      · rename_i heq; rw [Option.some_inj] at heq; cases heq; exact absurd rfl hn4
      · rename_i heq; rw [Option.some_inj] at heq; cases heq; exact absurd rfl hn5
      · rfl
    · intro hc
      rcases hc with hc | hc
      · exact h4 hc
      · rw [h5] at hc; cases hc
    · intro hc
      rcases hc with hc | hc
      · exact h2 hc
      · exact h3 hc
  · intro h1 h2 h3 h4 h5 hst
    simp only [normalizeChatError, if_neg h1]
    rw [if_neg, if_neg]
    · cases hcs : chatErrStatus e with
      | none => rfl
      | some v =>
          cases v with
          | num n => exact absurd hcs (hst n)
          | str s => rfl
    · intro hc
      rcases hc with hc | hc
      · exact h4 hc
      · rw [h5] at hc; cases hc
    · intro hc
      rcases hc with hc | hc
      · exact h2 hc
      · exact h3 hc

/-- Witness for C3 at concrete errors, one per mapping clause. -/
theorem normalizeChatError_mapping_witness :
    normalizeChatError { name := some "ProviderConfigError" } =
      { code := "provider_config_error", status := 400 } ∧
    normalizeChatError { causeName := some "ZodError" } =
      { code := "schema_validation_error", status := 400 } ∧
    normalizeChatError { name := some "SyntaxError" } =
      { code := "invalid_provider_config", status := 400 } ∧
    normalizeChatError { status := some (.num 403) } =
      { code := "unauthorized", status := 403 } ∧
    normalizeChatError { statusCode := some (.num 429) } =
      { code := "rate_limited", status := 429 } ∧
    normalizeChatError { respStatus := some (.num 529) } =
      { code := "provider_unavailable", status := 529 } ∧
    normalizeChatError { status := some (.num 418) } =
      { code := "generation_failed", status := 418 } ∧
    normalizeChatError { message := some "boom" } =
      { code := "generation_failed", status := 500 } := by
  refine ⟨?_, ?_, ?_, ?_, ?_, ?_, ?_, ?_⟩
  · exact (normalizeChatError_mapping { name := some "ProviderConfigError" }).1 rfl
  · exact (normalizeChatError_mapping { causeName := some "ZodError" }).2.1
      (by simp) (Or.inr rfl)
  · exact (normalizeChatError_mapping { name := some "SyntaxError" }).2.2.1
      (by simp) (by simp) (by simp) (Or.inl rfl)
  · exact (normalizeChatError_mapping { status := some (.num 403) }).2.2.2.1 403
      (by simp) (by simp) (by simp) (by simp) (by decide) rfl (Or.inr rfl)
  · exact (normalizeChatError_mapping { statusCode := some (.num 429) }).2.2.2.2.1
      (by simp) (by simp) (by simp) (by simp) (by decide) rfl
  · exact (normalizeChatError_mapping { respStatus := some (.num 529) }).2.2.2.2.2.1 529
      (by simp) (by simp) (by simp) (by simp) (by decide) rfl (Or.inr rfl)
  · exact (normalizeChatError_mapping { status := some (.num 418) }).2.2.2.2.2.2.1 418
      (by simp) (by simp) (by simp) (by simp) (by decide) rfl (by decide)
  · exact (normalizeChatError_mapping { message := some "boom" }).2.2.2.2.2.2.2
      (by simp) (by simp) (by simp) (by simp) (by decide) (fun n h => by cases h)

/-! ## C4: credential enforcement in the resolver -/

theorem optTruthy_jsOrO_false {a b : Option String}
    (ha : optTruthy a = false) (hb : optTruthy b = false) :
    optTruthy (jsOrO a b) = false := by
  simp [jsOrO, ha, hb]

theorem providerConfigsLookup_unknown (model : LLMModel) (config : LLMModelConfig)
    (env : Env) (pid : String) (h : pid ∉ knownProviderIds) :
    providerConfigsLookup model config env pid = none := by
  simp only [knownProviderIds, List.mem_cons, List.not_mem_nil, or_false, not_or] at h
  obtain ⟨h1, h2, h3, h4, h5, h6, h7, h8, h9, h10, h11⟩ := h
  unfold providerConfigsLookup
  split <;> simp_all

/-- C4: for every model descriptor whose providerId requires an API key, if
`config.apiKey` is falsy and the matching environment variable is falsy,
`getModelClient` fails with a `ProviderConfigError` naming exactly that
providerId (no client is constructed); the fully local provider `ollama`
resolves successfully with no API key at all; and an unknown providerId
always fails immediately with the `Unsupported provider` error rather than
any default client. -/
theorem getModelClient_credential_enforcement (model : LLMModel)
    (config : LLMModelConfig) (env : Env) :
    (model.providerId ∈ keyRequiringProviderIds →
      optTruthy config.apiKey = false →
      optTruthy (envGet env (providerEnvKey model.providerId)) = false →
      getModelClient model config env =
        .error (.providerConfig model.providerId
          ("Missing API key for provider: " ++ model.providerId))) ∧
    (model.providerId = "ollama" →
      getModelClient model config env = .ok (.ollama config.baseURL model.id)) ∧
    (model.providerId ∉ knownProviderIds →
      getModelClient model config env = .error (.unsupported model.providerId)) := by
  refine ⟨?_, ?_, ?_⟩
  · intro hmem hapi henv
    simp only [keyRequiringProviderIds, List.mem_cons, List.not_mem_nil, or_false] at hmem
    rcases hmem with h | h | h | h | h | h | h | h | h <;>
      · rw [h] at henv
        simp only [providerEnvKey] at henv
        have hkey := optTruthy_jsOrO_false hapi henv
        simp [getModelClient, h, providerConfigsLookup, resolvedLookup, hkey]
  · intro h
    simp [getModelClient, h, providerConfigsLookup]
  · intro hmem
    simp [getModelClient, providerConfigsLookup_unknown model config env _ hmem]

/-- Witness for C4: `openai` with no key anywhere fails naming `openai`;
`ollama` resolves with an empty config and environment; an unknown
providerId fails as unsupported. -/
theorem getModelClient_credential_enforcement_witness :
    getModelClient ⟨"gpt-4o", "GPT-4o", "OpenAI", "openai"⟩ {} [] =
      .error (.providerConfig "openai" "Missing API key for provider: openai") ∧
    getModelClient ⟨"llama3", "Llama 3", "Ollama", "ollama"⟩ {} [] =
      .ok (.ollama none "llama3") ∧
    getModelClient ⟨"m1", "M1", "Foo", "openrouter"⟩ {} [] =
      .error (.unsupported "openrouter") := by
  refine ⟨?_, ?_, ?_⟩
  · exact (getModelClient_credential_enforcement ⟨"gpt-4o", "GPT-4o", "OpenAI", "openai"⟩
      {} []).1 (by decide) rfl rfl
  · exact (getModelClient_credential_enforcement ⟨"llama3", "Llama 3", "Ollama", "ollama"⟩
      {} []).2.1 rfl
  · exact (getModelClient_credential_enforcement ⟨"m1", "M1", "Foo", "openrouter"⟩
      {} []).2.2 (by decide)

/-! ## C7: structured-credential (vertex) resolution -/

/-- C7: for the vertex provider, `getModelClient` parses the JSON credential
blob from the environment (defaulted to `\x7b\x7d` when the variable is
falsy); an unparseable blob fails with the invalid-JSON-credentials
`ProviderConfigError`; a parseable blob with missing required fields fails
listing exactly the missing field names (in particular, a blob missing only
`project_id` lists exactly `project_id`); and a blob with all three fields
resolves successfully. -/
theorem getModelClient_vertex_credentials (model : LLMModel)
    (config : LLMModelConfig) (env : Env) (hpid : model.providerId = "vertex") :
    (jsonParse ((jsOrO (envGet env "GOOGLE_VERTEX_CREDENTIALS") (some "\x7b\x7d")).getD "") =
        none →
      getModelClient model config env =
        .error (.providerConfig "vertex" "Invalid JSON in GOOGLE_VERTEX_CREDENTIALS")) ∧
    (∀ creds,
      jsonParse ((jsOrO (envGet env "GOOGLE_VERTEX_CREDENTIALS") (some "\x7b\x7d")).getD "") =
        some creds →
      vertexMissingFields creds ≠ [] →
      getModelClient model config env =
        .error (.providerConfig "vertex"
          ("Missing required Vertex credential fields: " ++
            String.intercalate ", " (vertexMissingFields creds)))) ∧
    (∀ creds,
      jsonParse ((jsOrO (envGet env "GOOGLE_VERTEX_CREDENTIALS") (some "\x7b\x7d")).getD "") =
        some creds →
      vertexMissingFields creds = [] →
      getModelClient model config env = .ok (.vertex creds model.id)) ∧
    (∀ creds,
      optJsTruthy (jsGet creds "client_email") = true →
      optJsTruthy (jsGet creds "private_key") = true →
      optJsTruthy (jsGet creds "project_id") = false →
      vertexMissingFields creds = ["project_id"]) := by
  have hred : getModelClient model config env = vertexCtor env model.id := by
    simp [getModelClient, hpid, providerConfigsLookup]
  refine ⟨?_, ?_, ?_, ?_⟩
  · intro hparse
    rw [hred]
    simp only [vertexCtor, hparse]
  · intro creds hparse hne
    rw [hred]
    simp only [vertexCtor, hparse]
    rw [if_pos]
    intro hlen
    exact hne (List.length_eq_zero.mp hlen)
  · intro creds hparse hz
    rw [hred]
    simp only [vertexCtor, hparse]
    rw [if_neg]
    simp [hz]
  · intro creds h1 h2 h3
    simp [vertexMissingFields, vertexRequiredFields, List.filter, h1, h2, h3]

/-- Witness for C7: an unparseable blob, a blob missing only `project_id`
(whose error message lists exactly `project_id`), and a complete blob. -/
theorem getModelClient_vertex_credentials_witness :
    getModelClient ⟨"gem", "Gem", "Vertex", "vertex"⟩ {}
        [("GOOGLE_VERTEX_CREDENTIALS", "oops")] =
      .error (.providerConfig "vertex" "Invalid JSON in GOOGLE_VERTEX_CREDENTIALS") ∧
    getModelClient ⟨"gem", "Gem", "Vertex", "vertex"⟩ {}
        [("GOOGLE_VERTEX_CREDENTIALS",
          "\x7b\"client_email\":\"a@b\",\"private_key\":\"pk\"\x7d")] =
      .error (.providerConfig "vertex"
        "Missing required Vertex credential fields: project_id") ∧
    getModelClient ⟨"gem", "Gem", "Vertex", "vertex"⟩ {}
        [("GOOGLE_VERTEX_CREDENTIALS",
          "\x7b\"client_email\":\"a@b\",\"private_key\":\"pk\",\"project_id\":\"p1\"\x7d")] =
      .ok (.vertex (.obj [("client_email", .str "a@b"), ("private_key", .str "pk"),
        ("project_id", .str "p1")]) "gem") := by
  refine ⟨?_, ?_, ?_⟩
  · exact (getModelClient_vertex_credentials ⟨"gem", "Gem", "Vertex", "vertex"⟩ {}
      [("GOOGLE_VERTEX_CREDENTIALS", "oops")] rfl).1 rfl
  · have h := (getModelClient_vertex_credentials ⟨"gem", "Gem", "Vertex", "vertex"⟩ {}
      [("GOOGLE_VERTEX_CREDENTIALS",
        "\x7b\"client_email\":\"a@b\",\"private_key\":\"pk\"\x7d")] rfl).2.1
      (.obj [("client_email", .str "a@b"), ("private_key", .str "pk")]) rfl
      (by intro hc; cases hc)
    exact h
  · exact (getModelClient_vertex_credentials ⟨"gem", "Gem", "Vertex", "vertex"⟩ {}
      [("GOOGLE_VERTEX_CREDENTIALS",
        "\x7b\"client_email\":\"a@b\",\"private_key\":\"pk\",\"project_id\":\"p1\"\x7d")]
      rfl).2.2.1
      (.obj [("client_email", .str "a@b"), ("private_key", .str "pk"),
        ("project_id", .str "p1")]) rfl rfl

/-! ## C5: fallback never re-invokes the failed provider -/

theorem optTruthy_jsOrO_false_iff (a b : Option String) :
    optTruthy (jsOrO a b) = false ↔ optTruthy a = false ∧ optTruthy b = false := by
  by_cases h : optTruthy a = true
  · simp [jsOrO, h]
  · simp only [Bool.not_eq_true] at h
    simp [jsOrO, h]

/-- A `ProviderConfigError` escaping `getModelClient` always names the
request's own providerId, and only arises for a known provider. -/
theorem getModelClient_providerConfig_source (model : LLMModel)
    (config : LLMModelConfig) (env : Env) (p msg : String)
    (h : getModelClient model config env = .error (.providerConfig p msg)) :
    p = model.providerId ∧ model.providerId ∈ knownProviderIds := by
  by_cases hmem : model.providerId ∈ knownProviderIds
  · refine ⟨?_, hmem⟩
    have hm := hmem
    simp only [knownProviderIds, List.mem_cons, List.not_mem_nil, or_false] at hm
    rcases hm with hq | hq | hq | hq | hq | hq | hq | hq | hq | hq | hq <;>
      all_goals (
        rw [hq]
        simp only [getModelClient, hq, providerConfigsLookup, resolvedLookup,
          vertexCtor] at h
        repeat' split at h
        all_goals simp_all)
  · have hnone := providerConfigsLookup_unknown model config env _ hmem
    simp [getModelClient, hnone] at h

/-- When `getModelClient` rejects a key-requiring provider with a
`ProviderConfigError`, that provider's environment key is itself falsy (the
resolved key is `config.apiKey || env var`, and the throw needs it falsy). -/
theorem getModelClient_missing_env_key (model : LLMModel)
    (config : LLMModelConfig) (env : Env) (p msg : String)
    (hmem : model.providerId ∈ keyRequiringProviderIds)
    (h : getModelClient model config env = .error (.providerConfig p msg)) :
    optTruthy (envGet env (providerEnvKey model.providerId)) = false := by
  simp only [keyRequiringProviderIds, List.mem_cons, List.not_mem_nil, or_false] at hmem
  rcases hmem with hq | hq | hq | hq | hq | hq | hq | hq | hq <;>
    all_goals (
      rw [hq]
      simp only [providerEnvKey]
      simp only [getModelClient, hq, providerConfigsLookup, resolvedLookup] at h
      split at h
      all_goals simp_all [optTruthy_jsOrO_false_iff])

/-- The priority loop never invokes anything. -/
theorem priorityLoop_not_invokeOpenRouter (env : Env) (providerSel : String)
    (entries : List (String × String × String)) (m : String) :
    priorityLoop env providerSel entries ≠ .invokeOpenRouter m := by
  induction entries with
  | nil => simp [priorityLoop]
  | cons e rest ih =>
      obtain ⟨k, pid, fm⟩ := e
      simp only [priorityLoop]
      split
      · exact ih
      · split
        · simp
        · exact ih

/-- A `logOnly` outcome of the priority loop comes from a listed entry whose
providerId differs from the selector and whose environment key is truthy. -/
theorem priorityLoop_logOnly (env : Env) (providerSel : String) :
    ∀ (entries : List (String × String × String)) (pid fm : String),
      priorityLoop env providerSel entries = .logOnly pid fm →
      ∃ k, (k, pid, fm) ∈ entries ∧ providerSel ≠ pid ∧
        optTruthy (envGet env k) = true := by
  intro entries
  induction entries with
  | nil => intro pid fm h; simp [priorityLoop] at h
  | cons e rest ih =>
      obtain ⟨k, q, fm'⟩ := e
      intro pid fm h
      simp only [priorityLoop] at h
      split at h
      · obtain ⟨k', h1, h2, h3⟩ := ih pid fm h
        exact ⟨k', List.mem_cons_of_mem _ h1, h2, h3⟩
      · rename_i hsel
        split at h
        · rename_i htr
          cases h
          exact ⟨k, List.mem_cons_self _ _, hsel, htr⟩
        · obtain ⟨k', h1, h2, h3⟩ := ih pid fm h
          exact ⟨k', List.mem_cons_of_mem _ h1, h2, h3⟩

/-- C5: in every state in which the chat `POST` handler can reach its
fallback block (the caught error is the `ProviderConfigError` produced by
`getModelClient` for this very request), the fallback never re-invokes the
provider that just failed: the only provider it ever re-invokes is
OpenRouter, which can never be the failed one; the priority-loop selection
always picks a provider different from the failed one, and only with its
credentials present; and `FallbackManager.getFallbackProvider` never returns
its input. -/
theorem chatFallback_skips_failed_provider (model : LLMModel)
    (config : LLMModelConfig) (env : Env) (providerSel : String)
    (modelOverride : Option String) (p msg : String)
    (herr : getModelClient model config env = .error (.providerConfig p msg)) :
    (∀ m, chatFallback env providerSel modelOverride config model = .invokeOpenRouter m →
      model.providerId ≠ "openrouter" ∧
      optTruthy (envGet env "OPENROUTER_API_KEY") = true) ∧
    (∀ pid fm, chatFallback env providerSel modelOverride config model = .logOnly pid fm →
      pid ≠ model.providerId ∧ optTruthy (envGet env (providerEnvKey pid)) = true) ∧
    (∀ cur next, getFallbackProvider cur = some next → next ≠ cur) := by
  obtain ⟨hp, hmem⟩ := getModelClient_providerConfig_source model config env p msg herr
  refine ⟨?_, ?_, ?_⟩
  · intro m hfb
    constructor
    · intro hor
      rw [hor] at hmem
      simp [knownProviderIds] at hmem
    · simp only [chatFallback] at hfb
      split at hfb
      · rename_i hcond
        exact hcond.1
      · exact absurd hfb (priorityLoop_not_invokeOpenRouter env providerSel providerPriority m)
  · intro pid fm hfb
    simp only [chatFallback] at hfb
    split at hfb
    · cases hfb
    · obtain ⟨k, hkmem, _, htr⟩ :=
        priorityLoop_logOnly env providerSel providerPriority pid fm hfb
      simp only [providerPriority, List.mem_cons, List.not_mem_nil, or_false,
        Prod.mk.injEq] at hkmem
      have hstep : pid ∈ (["groq", "mistral", "openai", "togetherai"] : List String) ∧
          providerEnvKey pid = k := by
        rcases hkmem with ⟨hk, hpid, _⟩ | ⟨hk, hpid, _⟩ | ⟨hk, hpid, _⟩ | ⟨hk, hpid, _⟩ <;>
          (subst hpid; subst hk; exact ⟨by decide, rfl⟩)
      obtain ⟨hpid4, hkey⟩ := hstep
      refine ⟨?_, by rw [hkey]; exact htr⟩
      intro hsame
      have hreq : model.providerId ∈ keyRequiringProviderIds := by
        rw [← hsame]
        fin_cases hpid4 <;> decide
      have hfalse := getModelClient_missing_env_key model config env p msg hreq herr
      rw [← hsame, hkey] at hfalse
      rw [htr] at hfalse
      cases hfalse
  · intro cur next hnext
    by_cases c1 : cur = "openai"
    · subst c1
      simp [getFallbackProvider, jsIndexOf, aiProviders] at hnext
      subst hnext
      decide
    · by_cases c2 : cur = "anthropic"
      · subst c2
        simp [getFallbackProvider, jsIndexOf, aiProviders] at hnext
        subst hnext
        decide
      · by_cases c3 : cur = "mistral"
        · subst c3
          simp [getFallbackProvider, jsIndexOf, aiProviders] at hnext
          subst hnext
          decide
        · by_cases c4 : cur = "groq"
          · subst c4
            simp [getFallbackProvider, jsIndexOf, aiProviders] at hnext
          · simp [getFallbackProvider, jsIndexOf, aiProviders,
              Ne.symm c1, Ne.symm c2, Ne.symm c3, Ne.symm c4] at hnext

/-- Witness for C5: an `openai` request failing for a missing key, with
OpenRouter credentials present (fallback re-invokes OpenRouter, not openai);
the same failure with only a Groq key present (priority loop selects groq);
and a concrete `getFallbackProvider` step. -/
theorem chatFallback_skips_failed_provider_witness :
    chatFallback [("OPENROUTER_API_KEY", "sk-or")] "default" none {}
        ⟨"gpt-4o", "GPT-4o", "OpenAI", "openai"⟩ = .invokeOpenRouter "gpt-4o" ∧
    ("openai" : String) ≠ "openrouter" ∧
    optTruthy (envGet [("OPENROUTER_API_KEY", "sk-or")] "OPENROUTER_API_KEY") = true ∧
    chatFallback [("GROQ_API_KEY", "gk")] "default" none {}
        ⟨"gpt-4o", "GPT-4o", "OpenAI", "openai"⟩ =
      .logOnly "groq" "llama-3.3-70b-versatile" ∧
    ("groq" : String) ≠ "openai" ∧
    getFallbackProvider "anthropic" = some "mistral" ∧
    ("mistral" : String) ≠ "anthropic" := by
  have herr1 : getModelClient ⟨"gpt-4o", "GPT-4o", "OpenAI", "openai"⟩ {}
      [("OPENROUTER_API_KEY", "sk-or")] =
      .error (.providerConfig "openai" "Missing API key for provider: openai") := rfl
  have herr2 : getModelClient ⟨"gpt-4o", "GPT-4o", "OpenAI", "openai"⟩ {}
      [("GROQ_API_KEY", "gk")] =
      .error (.providerConfig "openai" "Missing API key for provider: openai") := rfl
  have h1 := (chatFallback_skips_failed_provider ⟨"gpt-4o", "GPT-4o", "OpenAI", "openai"⟩
      {} [("OPENROUTER_API_KEY", "sk-or")] "default" none
      "openai" "Missing API key for provider: openai" herr1).1 "gpt-4o" rfl
  have h2 := (chatFallback_skips_failed_provider ⟨"gpt-4o", "GPT-4o", "OpenAI", "openai"⟩
      {} [("GROQ_API_KEY", "gk")] "default" none
      "openai" "Missing API key for provider: openai" herr2).2.1
      "groq" "llama-3.3-70b-versatile" rfl
  have h3 := (chatFallback_skips_failed_provider ⟨"gpt-4o", "GPT-4o", "OpenAI", "openai"⟩
      {} [("GROQ_API_KEY", "gk")] "default" none
      "openai" "Missing API key for provider: openai" herr2).2.2
      "anthropic" "mistral" rfl
  exact ⟨rfl, h1.1, h1.2, rfl, h2.1, rfl, h3⟩

/-! ## C10: invalid requests are rejected before rate limiting -/

/-- C10: for every inbound request whose body is not parseable JSON, or whose
body fails the request schema (e.g. `temperature` outside `[0, 2]` or
`maxTokens < 1`), the chat `POST` handler returns HTTP 400 with `error.code`
`invalid_json` or `invalid_request` respectively — codes outside the §4.3
taxonomy — and neither the rate limiter nor the provider resolver is reached,
leaving the rate-limit bucket map unchanged: invalid requests never consume
rate-limit quota. -/
theorem chatPostIngress_invalid_requests (req : Request) (maxRequests : Int)
    (windowMs now : Nat) (buckets : Buckets) :
    (req.method = "POST" → req.body = none →
      chatPostIngress req maxRequests windowMs now buckets =
        { response := some ("invalid_json", 400), buckets := buckets,
          rateLimiterReached := false, resolverReached := false }) ∧
    (∀ data, req.method = "POST" → req.body = some data →
      validChatRequest data = false →
      chatPostIngress req maxRequests windowMs now buckets =
        { response := some ("invalid_request", 400), buckets := buckets,
          rateLimiterReached := false, resolverReached := false }) ∧
    "invalid_json" ∉ canonicalErrorCodes ∧
    "invalid_request" ∉ canonicalErrorCodes := by
  refine ⟨?_, ?_, by decide, by decide⟩
  · intro hm hb
    simp [chatPostIngress, hm, hb]
  · intro data hm hb hv
    simp [chatPostIngress, hm, hb, hv]

/-- Witness for C10: a malformed body, and a schema-invalid body with
`temperature = 3` (outside `[0, 2]`). -/
theorem chatPostIngress_invalid_requests_witness :
    chatPostIngress ⟨"POST", [], none⟩ 10 60000 0 [] =
      { response := some ("invalid_json", 400), buckets := [],
        rateLimiterReached := false, resolverReached := false } ∧
    chatPostIngress
        ⟨"POST", [],
         some (.obj [("messages", .arr []),
           ("model", .obj [("id", .str "gpt-4o"), ("name", .str "GPT-4o"),
             ("provider", .str "OpenAI"), ("providerId", .str "openai")]),
           ("config", .obj [("temperature", .num 3)])])⟩ 10 60000 0 [] =
      { response := some ("invalid_request", 400), buckets := [],
        rateLimiterReached := false, resolverReached := false } ∧
    validChatRequest (.obj [("messages", .arr []),
      ("model", .obj [("id", .str "gpt-4o"), ("name", .str "GPT-4o"),
        ("provider", .str "OpenAI"), ("providerId", .str "openai")]),
      ("config", .obj [("temperature", .num 3)])]) = false := by
  refine ⟨?_, ?_, rfl⟩
  · exact (chatPostIngress_invalid_requests ⟨"POST", [], none⟩ 10 60000 0 []).1 rfl rfl
  · exact (chatPostIngress_invalid_requests
      ⟨"POST", [],
       some (.obj [("messages", .arr []),
         ("model", .obj [("id", .str "gpt-4o"), ("name", .str "GPT-4o"),
           ("provider", .str "OpenAI"), ("providerId", .str "openai")]),
         ("config", .obj [("temperature", .num 3)])])⟩ 10 60000 0 []).2.1
      (.obj [("messages", .arr []),
        ("model", .obj [("id", .str "gpt-4o"), ("name", .str "GPT-4o"),
          ("provider", .str "OpenAI"), ("providerId", .str "openai")]),
        ("config", .obj [("temperature", .num 3)])]) rfl rfl rfl
